import Mathlib

/-!
Verification of the estimate computation and catalog-resolution logic of the
repair-shop price-quoting service (`src/app.py`, `src/generate_monster_catalog.py`).

Numbers are modelled over `ℚ` (Python floats idealised as exact rationals; all
constants involved are short decimals). Python's `round` (banker's rounding,
half to even) is modelled by `pyRound`. JSON documents are modelled by a small
`Json` type with objects as association lists (Python dicts preserve insertion
order and have unique keys, so first-match lookup agrees with dict lookup).
-/

/-- The characters stripped by Python's default `str.strip()` (ASCII
whitespace; the exotic Unicode space classes never occur in the data). -/
def pySpace (c : Char) : Bool :=
  c == ' ' || c == '\t' || c == '\n' || c == '\r' || c == '\x0b' || c == '\x0c'

/-- Python `s.strip()`. -/
def pyStrip (s : String) : String :=
  ⟨((s.data.dropWhile pySpace).reverse.dropWhile pySpace).reverse⟩

/-- Python `s[:n]` (slicing by code points). -/
def pyTake (s : String) (n : Nat) : String := ⟨s.data.take n⟩

/-- Python `s.upper()` (ASCII; all makes and models in the data are ASCII). -/
def pyUpper (s : String) : String := ⟨s.data.map Char.toUpper⟩

/-- Python `s.isdigit()` (false on the empty string). -/
def pyIsDigit (s : String) : Bool := !s.data.isEmpty && s.data.all Char.isDigit

/-- Python `s.startswith(p)`. -/
def pyStartsWith (s p : String) : Bool := p.data.isPrefixOf s.data

/-- Python `len(s)` (code points). -/
def pyLen (s : String) : Nat := s.data.length

/-- A JSON value, as produced by `json.loads`. -/
inductive Json where
  | null : Json
  | bool (b : Bool) : Json
  | num (q : ℚ) : Json
  | str (s : String) : Json
  | arr (xs : List Json) : Json
  | obj (kvs : List (String × Json)) : Json

/-- Python `d.get(k)` on a dict (`none` when the key is absent, or when the
value is not a dict at all; Python would raise `AttributeError` in the latter
case, which no code path reached by the claims exercises). -/
def Json.getKey : Json → String → Option Json
  | .obj kvs, k => kvs.lookup k
  | _, _ => none

/-- Python `d.get(k, default)`. -/
def Json.getD (j : Json) (k : String) (d : Json) : Json :=
  (j.getKey k).getD d

/-- Python truthiness of a JSON value (`None`, `0`, `""`, `[]` and an empty
dict are falsy, everything else truthy). -/
def Json.truthy : Json → Bool
  | .null => false
  | .bool b => b
  | .num q => q != 0
  | .str s => s != ""
  | .arr xs => !xs.isEmpty
  | .obj kvs => !kvs.isEmpty

/-- Python `a or b` where `a` is an optional JSON value (`dict.get` result). -/
def orTruthy (a : Option Json) (b : Json) : Json :=
  match a with
  | some j => if j.truthy then j else b
  | none => b

/-- Python `float(...)` applied to a JSON value. `float` of a number is the
number, of a bool it is 0.0/1.0; `None`, lists and dicts raise `TypeError`.
Numeric strings (which Python would parse) are not modelled: neither the
shipped catalog nor any claim stores hours or rates as strings. -/
def pyFloat : Json → Except String ℚ
  | .num q => .ok q
  | .bool b => .ok (if b then 1 else 0)
  | .str _ => .error "ValueError: could not convert string to float"
  | .null => .error "TypeError: float() argument must be a string or a number"
  | .arr _ => .error "TypeError: float() argument must be a string or a number"
  | .obj _ => .error "TypeError: float() argument must be a string or a number"

/-- Python `str(...)` of a JSON value. Only the string case is exercised by
the catalog data and the claims; container rendering is abbreviated. -/
def pyStr : Json → String
  | .str s => s
  | .null => "None"
  | .bool true => "True"
  | .bool false => "False"
  | .num q => toString q
  | .arr _ => "[...]"
  | .obj _ => "\x7b...\x7d"

/-- Python 3 `round(x)`: round half to even, returning an integer
(`int(round(subtotal))` in `estimate`). -/
def pyRound (q : ℚ) : ℤ :=
  let n := ⌊q⌋
  let r := q - (n : ℚ)
  if r < 1/2 then n
  else if (1/2 : ℚ) < r then n + 1
  else if n % 2 = 0 then n else n + 1

/-- Python `round(x, 2)` (used by the catalog generator's `svc` helper). -/
def round2 (q : ℚ) : ℚ := (pyRound (q * 100) : ℚ) / 100

/-- `zip_multiplier` (src/app.py lines 142-149): strip, truncate to five
characters, and apply the prefix rule when those are five digits. -/
def zip_multiplier (zip_code : String) : ℚ :=
  let z := pyTake (pyStrip zip_code) 5
  if pyLen z == 5 && pyIsDigit z then
    if pyStartsWith z "9" then 1.10
    else if pyStartsWith z "0" || pyStartsWith z "1" then 1.08
    else 1.00
  else 1.00

/-- `year_multiplier` (src/app.py lines 152-157). -/
def year_multiplier (year : ℤ) : ℚ :=
  if year ≤ 2005 then 1.08
  else if 2020 ≤ year then 1.05
  else 1.00

/-- The pydantic default of the `zip` field of `EstimateRequest`
(src/app.py line 182). -/
def zipDefault : String := "00000"

/-- `EstimateRequest` (src/app.py lines 163-183). Field defaults mirror the
pydantic defaults; the pydantic range constraints (year between 1970 and 2035,
non-negative prices and rates, zip length between 5 and 10) are the separate
predicate `EstimateRequest.validInput`. -/
structure EstimateRequest where
  year : ℤ
  make : String
  model : String
  category : Option String := none
  serviceCode : Option String := none
  service : Option String := none
  laborHours : ℚ := 0
  partsPrice : ℚ := 0
  laborRate : Option ℚ := none
  notes : Option String := none
  customerName : Option String := none
  customerPhone : Option String := none
  zip : Option String := some zipDefault
  signatureDataUrl : Option String := none
  deriving DecidableEq

/-- The pydantic field validators of `EstimateRequest` (requests violating
them are rejected with a 422 before `estimate` runs). -/
def EstimateRequest.validInput (r : EstimateRequest) : Prop :=
  1970 ≤ r.year ∧ r.year ≤ 2035 ∧ r.make ≠ "" ∧ r.model ≠ "" ∧
  0 ≤ r.laborHours ∧ 0 ≤ r.partsPrice ∧
  (∀ lr ∈ r.laborRate, 0 ≤ lr) ∧
  (∀ z ∈ r.zip, 5 ≤ z.length ∧ z.length ≤ 10)

/-- The `breakdown` dict of the response (src/app.py lines 347-355); its keys
are fixed, so it is modelled as a structure. -/
structure Breakdown where
  labor_hours : ℚ
  labor_rate : ℚ
  labor : ℚ
  parts : ℚ
  zip_multiplier : ℚ
  year_multiplier : ℚ
  subtotal : ℚ
  deriving DecidableEq

/-- `EstimateResponse` (src/app.py lines 186-190). -/
structure EstimateResponse where
  estimate : ℤ
  currency : String := "USD"
  breakdown : Breakdown
  service_name : String
  deriving DecidableEq

/-- The source feeding `load_services_catalog`: the file can be missing,
unreadable/unparseable, or hold a parsed JSON document. -/
inductive CatalogSource where
  | missing : CatalogSource
  | unreadableOrInvalid : CatalogSource
  | parsed (doc : Json) : CatalogSource

/-- `load_services_catalog` (src/app.py lines 102-121): existence, JSON-parse,
object and `categories`-list checks, then the document is served unchanged.
The mtime cache is a pure optimisation and is not modelled. -/
def load_services_catalog (src : CatalogSource) : Except String Json :=
  match src with
  | .missing => .error "Missing services_catalog.json at project root."
  | .unreadableOrInvalid => .error "Invalid JSON in services_catalog.json"
  | .parsed data =>
    match data with
    | .obj kvs =>
      match kvs.lookup "categories" with
      | some (.arr _) => .ok data
      | _ => .error "services_catalog.json must include a categories list"
    | _ => .error "services_catalog.json must be a JSON object."

/-- The `categories` list of a loaded catalog (`cat["categories"]`;
`load_services_catalog` guarantees it is a list). -/
def categoriesOf (cat : Json) : List Json :=
  match cat.getKey "categories" with
  | some (.arr cs) => cs
  | _ => []

/-- `c.get("services", [])` for a category row, iterated as a list. -/
def servicesOf (c : Json) : List Json :=
  match c.getKey "services" with
  | some (.arr ss) => ss
  | _ => []

/-- The inner comparison `s.get("code") == code` of `find_service_by_code`:
in Python a missing key or a non-string value never equals the string. -/
def codeMatches (s : Json) (code : String) : Bool :=
  match s.getKey "code" with
  | some (.str v) => v == code
  | _ => false

/-- The nested category/service loop of `find_service_by_code`
(src/app.py lines 130-134): first match in catalog order wins. -/
def findInCats : List Json → String → Option Json
  | [], _ => none
  | c :: rest, code =>
    match (servicesOf c).find? (fun s => codeMatches s code) with
    | some s => some s
    | none => findInCats rest code

/-- `find_service_by_code` (src/app.py lines 124-134). -/
def find_service_by_code (cat : Json) (service_code : String) : Option Json :=
  let code := pyStrip service_code
  if code = "" then none
  else findInCats (categoriesOf cat) code

/-- `default_labor_rate` (src/app.py lines 137-139):
`float(cat.get("default_labor_rate") or cat.get("labor_rate") or 90)`. -/
def default_labor_rate (cat : Json) : Except String ℚ :=
  pyFloat (orTruthy (cat.getKey "default_labor_rate")
    (orTruthy (cat.getKey "labor_rate") (.num 90)))

/-- The normalized make→models mapping produced by `load_make_models`. -/
abbrev MakeModels := List (String × List String)

/-- The make/model validation of `estimate` (src/app.py lines 299-311):
unknown make, blank model and model-not-in-make's-list each raise a 400. -/
def checkVehicle (mm : MakeModels) (req : EstimateRequest) : Except String Unit :=
  match mm.lookup (pyUpper (pyStrip req.make)) with
  | none => .error "Invalid make"
  | some models =>
    let model := pyStrip req.model
    if model = "" then .error "Model is required"
    else if models.any (fun m => pyUpper m == pyUpper model) then .ok ()
    else .error "Invalid model for selected make"

/-- The display name of a resolved service:
`str(s.get("name", "")).strip()` (src/app.py line 321). -/
def serviceNameOf (s : Json) : String :=
  pyStrip (pyStr (s.getD "name" (.str "")))

/-- The `req.service` fallback branch of `estimate`
(src/app.py lines 328-330). -/
def resolveByName (req : EstimateRequest) : Except String (String × ℚ) :=
  let n := pyStrip (req.service.getD "")
  if n = "" then .error "Select a service" else .ok (n, 0)

/-- The service-determination block of `estimate` (src/app.py lines 313-330):
returns the service name and the default labor hours (the midpoint of the
entry's min/max bounds when `max > 0` and `max ≥ min`, otherwise 0). -/
def resolveService (cat : Json) (req : EstimateRequest) : Except String (String × ℚ) :=
  match req.serviceCode with
  | some sc =>
    if sc = "" then resolveByName req
    else
      match find_service_by_code cat sc with
      | none => .error "Invalid serviceCode"
      | some s =>
        match pyFloat (s.getD "labor_hours_min" (.num 0)),
              pyFloat (s.getD "labor_hours_max" (.num 0)) with
        | .ok mn, .ok mx =>
          .ok (serviceNameOf s, if 0 < mx ∧ mn ≤ mx then (mn + mx) / 2 else 0)
        | .error e, _ => .error e
        | _, .error e => .error e
  | none => resolveByName req

/-- Line 332 of src/app.py: the request's rate whenever it is non-null
(`is not None`), else the catalog default. -/
def laborRateOf (cat : Json) (req : EstimateRequest) : Except String ℚ :=
  match req.laborRate with
  | some r => .ok r
  | none => default_labor_rate cat

/-- Line 338 of src/app.py: `req.zip or "00000"`. -/
def effectiveZip (z : Option String) : String :=
  match z with
  | some s => if s = "" then zipDefault else s
  | none => zipDefault

/-- The pricing tail of `estimate` (src/app.py lines 333-356): effective
hours, labor, multipliers, subtotal, half-even rounding, and the response. -/
def priceResponse (req : EstimateRequest) (service_name : String)
    (hours_default labor_rate : ℚ) : EstimateResponse :=
  let labor_hours := if 0 < req.laborHours then req.laborHours else hours_default
  let labor := labor_hours * labor_rate
  let parts := req.partsPrice
  let z := zip_multiplier (effectiveZip req.zip)
  let y := year_multiplier req.year
  let subtotal := (labor + parts) * z * y
  { estimate := pyRound subtotal,
    currency := "USD",
    breakdown :=
      { labor_hours := labor_hours, labor_rate := labor_rate, labor := labor,
        parts := parts, zip_multiplier := z, year_multiplier := y,
        subtotal := subtotal },
    service_name := service_name }

/-- The `POST /estimate` handler (src/app.py lines 297-356), parametrised by
the loaded make→models mapping and the loaded services catalog. -/
def estimate (mm : MakeModels) (cat : Json) (req : EstimateRequest) :
    Except String EstimateResponse :=
  match checkVehicle mm req with
  | .error e => .error e
  | .ok _ =>
    match resolveService cat req with
    | .error e => .error e
    | .ok (service_name, hours_default) =>
      match laborRateOf cat req with
      | .error e => .error e
      | .ok labor_rate => .ok (priceResponse req service_name hours_default labor_rate)

/-!
Embedding of `src/generate_monster_catalog.py`: the script that produces the
shipped `services_catalog.json`. Its `svc`/`cat` helpers and the `build`
function are transcribed below; `build` returns the `categories` list of the
document the script writes.
-/

namespace Monster

/-- A service row as produced by `svc` in generate_monster_catalog.py. -/
structure Service where
  code : String
  name : String
  labor_hours_min : ℚ
  labor_hours_max : ℚ
  flat_rate_min : ℤ
  flat_rate_max : ℤ

/-- `svc(code, name, h1, h2, f1, f2)` (generate_monster_catalog.py lines
6-14): hours are `round(float(h), 2)`, flat rates are `int(f)`. -/
def svc (code name : String) (h1 h2 : ℚ) (f1 f2 : ℤ) : Service :=
  { code := code, name := name,
    labor_hours_min := round2 h1, labor_hours_max := round2 h2,
    flat_rate_min := f1, flat_rate_max := f2 }

/-- A category row as produced by `cat` (lines 16-17). -/
structure Category where
  key : String
  name : String
  services : List Service

/-- `cat(key, name, services)`. -/
def cat (key name : String) (services : List Service) : Category :=
  { key := key, name := name, services := services }

/-- `build()` (lines 19-215), returning the `categories` list (the written
document is `{"categories": build()}`), in the exact order the script appends:
the four hand-written categories, `add_many` calls, `extra_categories` in
insertion order, then `bulk_templates`. -/
def build : List Category := [
  cat "intake_air" "Intake / Air / Vacuum" [
    svc "intake_manifold_replace" "Intake Manifold Replacement" 3.5 9.0 900 2400,
    svc "intake_manifold_gasket" "Intake Manifold Gasket Replacement" 3.0 8.0 700 1900,
    svc "throttle_body_clean" "Throttle Body Cleaning" 0.7 1.5 120 260,
    svc "throttle_body_replace" "Throttle Body Replacement" 0.8 2.5 250 900,
    svc "maf_sensor" "MAF Sensor Replacement" 0.3 0.8 90 200,
    svc "map_sensor" "MAP Sensor Replacement" 0.3 0.9 90 220,
    svc "vacuum_leak_diag" "Vacuum Leak Diagnosis (smoke test)" 1.0 2.5 150 420,
    svc "pcv_valve" "PCV Valve Replacement" 0.3 1.2 70 220,
    svc "pcv_hose" "PCV Hose Replacement" 0.4 1.5 90 260,
    svc "intake_boot" "Intake Boot / Duct Replacement" 0.4 1.2 120 320,
    svc "idle_air_control" "Idle Air Control Valve Replacement" 0.6 2.0 160 520],
  cat "cooling" "Cooling System" [
    svc "water_pump" "Water Pump Replacement" 2.0 6.0 600 1700,
    svc "radiator_replace" "Radiator Replacement" 1.5 4.0 450 1200,
    svc "thermostat" "Thermostat Replacement" 1.0 3.0 220 650,
    svc "coolant_flush" "Coolant Flush" 1.0 1.8 140 260,
    svc "coolant_leak_diag" "Coolant Leak Diagnosis (pressure test)" 1.0 2.5 150 420,
    svc "cooling_fan" "Cooling Fan / Fan Clutch Replacement" 1.0 3.5 300 950,
    svc "hose_replace" "Coolant Hose Replacement (each)" 0.7 2.5 150 520,
    svc "thermostat_housing" "Thermostat Housing Replacement" 1.0 3.5 220 820,
    svc "coolant_temp_sensor" "Coolant Temp Sensor Replacement" 0.4 1.2 120 320,
    svc "heater_hose" "Heater Hose Replacement" 0.8 3.0 180 700],
  cat "transmission" "Transmission" [
    svc "trans_diag" "Transmission Diagnosis" 1.0 3.0 150 450,
    svc "trans_service" "Transmission Fluid Service" 1.0 2.5 180 420,
    svc "trans_flush" "Transmission Fluid Flush" 1.0 2.5 220 520,
    svc "trans_pan_gasket" "Transmission Pan Gasket + Filter" 1.5 3.0 280 650,
    svc "shift_solenoid" "Shift Solenoid Replacement" 2.0 6.0 550 1600,
    svc "tcc_solenoid" "Torque Converter Clutch (TCC) Solenoid" 2.0 6.5 600 1750,
    svc "trans_mount" "Transmission Mount Replacement" 1.0 3.5 260 900,
    svc "clutch_replace" "Clutch Replacement (manual)" 5.0 10.0 1100 2600,
    svc "clutch_master" "Clutch Master Cylinder Replacement" 1.5 4.0 350 900,
    svc "clutch_slave" "Clutch Slave Cylinder Replacement" 2.0 6.0 500 1500],
  cat "driveline" "Driveline / Axle / 4WD" [
    svc "cv_axle" "CV Axle Replacement (each)" 1.5 3.5 420 950,
    svc "u_joint" "U-Joint Replacement (each)" 1.0 2.5 280 650,
    svc "driveshaft_replace" "Driveshaft Replacement" 1.5 3.0 450 1100,
    svc "wheel_bearing" "Wheel Bearing / Hub Assembly (each)" 1.5 4.0 420 1100,
    svc "diff_service" "Differential Fluid Service" 0.8 1.8 140 320,
    svc "transfer_case_service" "Transfer Case Fluid Service" 0.8 1.8 160 360,
    svc "axle_seal" "Axle Seal Replacement (each)" 2.0 5.5 450 1400,
    svc "diff_reseal" "Differential Reseal" 3.0 7.0 700 1800],
  cat "engine" "Engine" [
    svc "engine_diag" "Engine Diagnostic" 1.0 2.5 120 300,
    svc "spark_plugs" "Spark Plug Replacement" 1.0 3.0 200 600,
    svc "valve_cover_gasket" "Valve Cover Gasket Replacement" 2.5 5.0 500 1100,
    svc "timing_belt" "Timing Belt Replacement" 3.5 7.5 700 1600,
    svc "timing_chain" "Timing Chain Replacement" 6.0 14.0 1200 3200,
    svc "head_gasket" "Head Gasket Replacement" 10.0 22.0 2200 5500,
    svc "motor_mounts" "Engine Mounts (pair)" 2.0 6.0 450 1200,
    svc "oil_leak_diag" "Oil Leak Diagnosis" 1.0 2.5 150 420],
  cat "fuel_ignition" "Fuel / Ignition" [
    svc "misfire_diag" "Misfire Diagnosis" 1.0 3.0 150 450,
    svc "coil_pack" "Ignition Coil Replacement (each)" 0.3 1.2 120 320,
    svc "fuel_pump" "Fuel Pump Replacement" 2.5 6.5 650 1700,
    svc "fuel_filter" "Fuel Filter Replacement" 0.5 1.5 120 280,
    svc "injector_single" "Fuel Injector Replacement (each)" 0.8 2.5 180 520,
    svc "injector_set" "Fuel Injectors Replacement (set)" 3.0 8.0 900 2400,
    svc "fuel_pressure_test" "Fuel Pressure Test" 0.8 1.5 120 260],
  cat "exhaust_emissions" "Exhaust / Emissions" [
    svc "o2_sensor" "O2 Sensor Replacement" 0.5 2.0 160 520,
    svc "catalytic_converter" "Catalytic Converter Replacement" 1.5 4.5 700 2200,
    svc "muffler_replace" "Muffler Replacement" 1.0 2.5 250 650,
    svc "evap_diag" "EVAP Leak Diagnosis" 1.0 3.0 160 520,
    svc "charcoal_canister" "EVAP Charcoal Canister Replacement" 1.0 3.0 280 900,
    svc "egr_valve" "EGR Valve Replacement" 1.0 3.0 300 900],
  cat "brakes" "Brakes" [
    svc "front_brake_pads" "Front Brake Pads" 1.0 1.5 180 320,
    svc "rear_brake_pads" "Rear Brake Pads" 1.0 1.5 180 320,
    svc "brake_rotors" "Brake Rotors (per axle)" 1.5 2.5 300 550,
    svc "brake_fluid_flush" "Brake Fluid Flush" 1.0 1.5 120 200,
    svc "caliper_replace" "Brake Caliper Replacement (each)" 1.0 2.0 220 420,
    svc "parking_brake_service" "Parking Brake Adjustment/Service" 1.0 2.5 150 450],
  cat "suspension" "Suspension & Steering" [
    svc "struts_front" "Front Struts" 2.5 4.0 500 900,
    svc "shocks_rear" "Rear Shocks" 1.5 3.0 350 700,
    svc "control_arm" "Control Arm Replacement" 1.5 3.0 350 700,
    svc "tie_rod" "Tie Rod End Replacement (each)" 1.0 2.5 220 520,
    svc "ball_joint" "Ball Joint Replacement (each)" 1.5 4.0 320 900,
    svc "wheel_alignment" "Wheel Alignment" 1.0 1.5 90 160,
    svc "power_steering_pump" "Power Steering Pump Replacement" 1.5 4.0 450 1100],
  cat "electrical" "Electrical" [
    svc "electrical_diag" "Electrical Diagnostic" 1.0 2.0 90 180,
    svc "battery_replace" "Battery Replacement" 0.5 1.0 120 220,
    svc "alternator_replace" "Alternator Replacement" 1.5 3.5 400 850,
    svc "starter_replace" "Starter Replacement" 1.5 3.0 350 700,
    svc "parasitic_draw_diag" "Parasitic Draw Diagnosis" 1.0 3.0 120 360,
    svc "ground_repair" "Ground / Wiring Repair (minor)" 0.8 2.5 140 450],
  cat "ac_heat" "A/C & Heating" [
    svc "ac_diag" "A/C Diagnosis" 1.0 2.5 150 420,
    svc "ac_recharge" "A/C Recharge" 1.0 1.5 150 250,
    svc "ac_compressor" "A/C Compressor Replacement" 2.5 6.0 900 2400,
    svc "blower_motor" "Blower Motor Replacement" 1.5 3.5 300 700,
    svc "blend_door_actuator" "Blend Door Actuator Replacement" 1.5 5.0 350 1200,
    svc "heater_core" "Heater Core Replacement" 6.0 10.0 1200 2500],
  cat "tires_wheels" "Tires / Wheels" [
    svc "tire_mount_balance" "Mount & Balance Tires (set)" 1.0 2.0 120 260,
    svc "tire_repair" "Tire Repair (plug/patch)" 0.3 0.8 30 90,
    svc "wheel_balance" "Wheel Balance (set)" 0.8 1.5 80 160,
    svc "tpms_sensor" "TPMS Sensor Replacement (each)" 0.5 1.2 80 220],
  cat "lighting" "Lighting" [
    svc "headlight_bulb" "Headlight Bulb Replacement" 0.3 1.0 60 220,
    svc "taillight_bulb" "Tail Light Bulb Replacement" 0.2 0.8 40 160,
    svc "fog_light" "Fog Light Replacement" 0.5 1.5 90 320],
  cat "body" "Body / Exterior" [
    svc "door_handle" "Exterior Door Handle Replacement" 1.0 3.0 180 650,
    svc "window_regulator" "Window Regulator Replacement" 1.2 3.5 260 850,
    svc "mirror_replace" "Side Mirror Replacement" 0.8 2.0 180 520],
  cat "interior" "Interior / Controls" [
    svc "cabin_noise_diag" "Noise / Rattle Diagnosis" 1.0 3.0 120 450,
    svc "seat_motor" "Seat Motor / Track Repair" 1.0 3.5 180 900],
  cat "gaskets_seals" "Gaskets / Seals / Leaks" [
    svc "oil_pan_gasket" "Oil Pan Gasket Replacement" 3.0 8.0 700 2000,
    svc "rear_main_seal" "Rear Main Seal Replacement" 6.0 14.0 1200 3200,
    svc "front_crank_seal" "Front Crank Seal Replacement" 2.5 6.0 550 1500],
  cat "inspection" "Inspection / Diagnostics" [
    svc "pre_purchase" "Pre-Purchase Inspection" 1.0 2.0 120 240,
    svc "check_engine_diag" "Check Engine Light Diagnosis" 1.0 2.5 120 320,
    svc "road_test_diag" "Road Test Diagnosis" 0.5 1.5 60 180],
  cat "sensors" "Sensors" [
    svc "o2_sensor_diag" "O2 Sensor Diagnosis" 0.8 1.8 120 260,
    svc "abs_sensor" "ABS Wheel Speed Sensor Replacement" 0.7 2.0 180 520,
    svc "cam_sensor" "Camshaft Position Sensor Replacement" 0.5 1.8 160 480,
    svc "crank_sensor" "Crankshaft Position Sensor Replacement" 0.8 2.5 200 650],
  cat "belts" "Belts / Pulleys" [
    svc "serp_belt" "Serpentine Belt Replacement" 0.5 1.5 120 320,
    svc "belt_tensioner" "Belt Tensioner Replacement" 0.8 2.5 220 650,
    svc "idler_pulley" "Idler Pulley Replacement" 0.6 2.0 180 520],
  cat "starting_charging" "Starting / Charging" [
    svc "starter_diag" "No-Start Diagnosis" 1.0 2.5 120 320,
    svc "alternator_diag" "Charging System Test" 0.6 1.5 90 220,
    svc "battery_test" "Battery Test / Load Test" 0.2 0.5 20 60]]

/-- The bounds invariant of a service row: positive hours with min ≤ max, and
the same for flat rates. -/
def Service.boundsOk (s : Service) : Bool :=
  decide (0 < s.labor_hours_min) && decide (s.labor_hours_min ≤ s.labor_hours_max) &&
  decide (0 < s.flat_rate_min) && decide (s.flat_rate_min ≤ s.flat_rate_max)

end Monster

/-!
Concrete data used to exercise the embedding: a small make→models mapping and
catalogs in the shape `load_services_catalog` accepts, plus requests and their
computed responses.
-/

/-- The shape check `load_services_catalog` performs on a parsed document:
an object carrying a `categories` list. -/
def catalogShapeOk (doc : Json) : Bool :=
  match doc with
  | .obj kvs =>
    match kvs.lookup "categories" with
    | some (.arr _) => true
    | _ => false
  | _ => false

/-- A normalized make→models mapping with one make. -/
def mmA : MakeModels := [("HONDA", ["Civic"])]

/-- The Scenario-A service entry: hours 1.0-1.5, no flat rate. -/
def svcA : Json := .obj [("code", .str "front_pads"), ("name", .str "Front Pads"),
  ("labor_hours_min", .num 1), ("labor_hours_max", .num 1.5)]

/-- The Scenario-A catalog: one category holding `svcA`. -/
def catA : Json := .obj [("categories", .arr [
  .obj [("key", .str "brakes"), ("name", .str "Brakes"), ("services", .arr [svcA])]])]

/-- The Scenario-A request: hourly, rate 90, parts 40, zip 92646, year 2010,
model CIVIC. -/
def reqA : EstimateRequest :=
  { year := 2010, make := "Honda", model := "CIVIC",
    serviceCode := some "front_pads", partsPrice := 40,
    laborRate := some 90, zip := some "92646" }

/-- The response the code computes for `reqA`: midpoint hours 1.25,
labor 112.50, subtotal (112.50+40)×1.10 = 167.75, rounded estimate 168. -/
def respA : EstimateResponse :=
  { estimate := 168, currency := "USD",
    breakdown :=
      { labor_hours := 1.25, labor_rate := 90, labor := 112.5, parts := 40,
        zip_multiplier := 1.1, year_multiplier := 1, subtotal := 167.75 },
    service_name := "Front Pads" }

/-- The response for `reqA` with parts price raised by 10: the subtotal moves
by 10 × 1.10 = 11, not by 10. -/
def respA10 : EstimateResponse :=
  { estimate := 179, currency := "USD",
    breakdown :=
      { labor_hours := 1.25, labor_rate := 90, labor := 112.5, parts := 50,
        zip_multiplier := 1.1, year_multiplier := 1, subtotal := 178.75 },
    service_name := "Front Pads" }

/-- The response for `reqA` with the zip field null: the `or "00000"` default
applies, giving the 1.08 multiplier and subtotal 152.5 × 1.08 = 164.70. -/
def respNoZip : EstimateResponse :=
  { estimate := 165, currency := "USD",
    breakdown :=
      { labor_hours := 1.25, labor_rate := 90, labor := 112.5, parts := 40,
        zip_multiplier := 1.08, year_multiplier := 1, subtotal := 164.7 },
    service_name := "Front Pads" }

/-- A service entry carrying no labor-hours fields at all. -/
def mysterySvc : Json := .obj [("code", .str "mystery"), ("name", .str "Mystery Service")]

/-- A well-shaped catalog whose only service has no hours bounds. -/
def mysteryDoc : Json := .obj [("categories", .arr [
  .obj [("key", .str "misc"), ("name", .str "Misc"), ("services", .arr [mysterySvc])]])]

/-- A request selecting the hours-less service, with no laborHours override. -/
def reqM : EstimateRequest :=
  { year := 2010, make := "Honda", model := "CIVIC",
    serviceCode := some "mystery", laborRate := some 90, zip := some "92646" }

/-- The response for `reqM`: the hours default stays 0, so labor and the whole
estimate degenerate to 0. -/
def respM : EstimateResponse :=
  { estimate := 0, currency := "USD",
    breakdown :=
      { labor_hours := 0, labor_rate := 90, labor := 0, parts := 0,
        zip_multiplier := 1.1, year_multiplier := 1, subtotal := 0 },
    service_name := "Mystery Service" }

/-- An object document whose `categories` list is empty. -/
def emptyCatalogDoc : Json := .obj [("categories", .arr [])]

/-- A make→models mapping for the truck scenario. -/
def mmF : MakeModels := [("FORD", ["F-150", "F-250"])]

/-- Year-2021 truck request (model F-150), named service, rate 100, 1 labor
hour, zip prefix 7 (regional multiplier 1.00). -/
def reqF : EstimateRequest :=
  { year := 2021, make := "Ford", model := "F-150",
    service := some "Generic Service", laborHours := 1,
    laborRate := some 100, zip := some "77777" }

/-- The response for `reqF`: only the year factor 1.05 is applied — there is
no body-type factor — so the subtotal is 100 × 1.05 = 105, not 126. -/
def respF : EstimateResponse :=
  { estimate := 105, currency := "USD",
    breakdown :=
      { labor_hours := 1, labor_rate := 100, labor := 100, parts := 0,
        zip_multiplier := 1, year_multiplier := 1.05, subtotal := 105 },
    service_name := "Generic Service" }

/-- A catalog document that supplies `default_labor_rate` 90. -/
def catD : Json := .obj [("categories", .arr []), ("default_labor_rate", .num 90)]

/-- A request whose labor-rate override is 0 (allowed by the `ge=0` pydantic
bound). -/
def reqZero : EstimateRequest :=
  { year := 2010, make := "Honda", model := "CIVIC",
    service := some "Oil Change", laborHours := 1,
    laborRate := some 0, zip := some "92646" }

/-- The response for `reqZero`: the 0 override is used as the labor rate (it
is not None), so labor is 0 even though the catalog default is 90. -/
def respZero : EstimateResponse :=
  { estimate := 0, currency := "USD",
    breakdown :=
      { labor_hours := 1, labor_rate := 0, labor := 0, parts := 0,
        zip_multiplier := 1.1, year_multiplier := 1, subtotal := 0 },
    service_name := "Oil Change" }

/-- `reqA` with an unknown make. -/
def reqBadMake : EstimateRequest := { reqA with make := "ZZZNOTAMAKE" }

/-- `reqA` with a model not in HONDA's list. -/
def reqBadModel : EstimateRequest := { reqA with model := "Accord" }

/-- `reqA` with an explicitly null zip. -/
def reqNoZip : EstimateRequest := { reqA with zip := none }

/-- The regional-multiplier rule as the spec words it, written independently
of `zip_multiplier`: look at the first five characters of the trimmed ZIP;
when they are five digits, the first digit decides (9 → 1.10, 0 or 1 → 1.08,
otherwise 1.00); anything else — empty, short, or a non-digit among the first
five — gives 1.00. -/
def zipSpecMultiplier (s : String) : ℚ :=
  match (pyStrip s).data.take 5 with
  | [] => 1.00
  | c :: cs =>
    if (c :: cs).length = 5 ∧ ∀ x ∈ c :: cs, x.isDigit then
      if c = '9' then 1.10
      else if c = '0' ∨ c = '1' then 1.08
      else 1.00
    else 1.00

/-!
General lemmas about the embedding, followed by evaluations of the concrete
scenarios, and then one theorem (plus witness/counterexample where needed)
per claim.
-/

/-- A successful estimate decomposes into the three pipeline stages of
src/app.py lines 299-356: vehicle validation, service resolution, labor-rate
resolution, and the pure pricing tail. -/
theorem estimate_eq_ok (mm : MakeModels) (cat : Json) (req : EstimateRequest)
    (r : EstimateResponse) :
    estimate mm cat req = Except.ok r ↔
    ∃ nm hd lr, checkVehicle mm req = Except.ok () ∧
      resolveService cat req = Except.ok (nm, hd) ∧
      laborRateOf cat req = Except.ok lr ∧ r = priceResponse req nm hd lr := by
  constructor
  · intro h
    unfold estimate at h
    split at h
    · simp at h
    · rename_i u heq1
      split at h
      · simp at h
      · rename_i nm hd heq2
        split at h
        · simp at h
        · rename_i lr heq3
          cases u
          exact ⟨nm, hd, lr, heq1, heq2, heq3, (Except.ok.injEq _ _ ▸ h).symm⟩
  · rintro ⟨nm, hd, lr, h1, h2, h3, rfl⟩
    unfold estimate
    rw [h1, h2, h3]

/-- The nested loop of `find_service_by_code` returns the first match of the
flattened service list, in catalog order. -/
theorem findInCats_eq (cats : List Json) (code : String) :
    findInCats cats code = (cats.flatMap servicesOf).find? (fun s => codeMatches s code) := by
  induction cats with
  | nil => rfl
  | cons c rest ih =>
    simp only [findInCats, List.flatMap_cons, List.find?_append, ih]
    cases h : (servicesOf c).find? (fun s => codeMatches s code) <;> simp [h, Option.or]

/-- The default zip "00000" is five digits with prefix 0, so it draws the
1.08 regional multiplier. -/
theorem zip_multiplier_default : zip_multiplier zipDefault = 1.08 := by
  simp +decide [zip_multiplier]

/-- Evaluation of Scenario A: the code returns the single response `respA`. -/
theorem eval_reqA : estimate mmA catA reqA = Except.ok respA := by
  have hc : checkVehicle mmA reqA = .ok () := by rfl
  have hr : resolveService catA reqA = .ok ("Front Pads", 1.25) := by
    have h1 : find_service_by_code catA "front_pads" = some svcA := by rfl
    have h2 : pyFloat (svcA.getD "labor_hours_min" (.num 0)) = .ok 1 := by rfl
    have h3 : pyFloat (svcA.getD "labor_hours_max" (.num 0)) = .ok 1.5 := by rfl
    have h4 : serviceNameOf svcA = "Front Pads" := by rfl
    simp only [resolveService, reqA]
    simp +decide only [h1, h2, h3, h4]
    norm_num
  have hl : laborRateOf catA reqA = .ok 90 := by rfl
  have hz : zip_multiplier "92646" = 1.10 := by simp +decide [zip_multiplier]
  simp only [estimate, hc, hr, hl]
  simp +decide only [priceResponse, respA, reqA, effectiveZip]
  norm_num [hz, year_multiplier, pyRound]

/-- Evaluation of Scenario A with the parts price raised by 10. -/
theorem eval_reqA10 :
    estimate mmA catA { reqA with partsPrice := reqA.partsPrice + 10 } = Except.ok respA10 := by
  have hc : checkVehicle mmA { reqA with partsPrice := reqA.partsPrice + 10 } = .ok () := by rfl
  have hr : resolveService catA { reqA with partsPrice := reqA.partsPrice + 10 } =
      .ok ("Front Pads", 1.25) := by
    have h1 : find_service_by_code catA "front_pads" = some svcA := by rfl
    have h2 : pyFloat (svcA.getD "labor_hours_min" (.num 0)) = .ok 1 := by rfl
    have h3 : pyFloat (svcA.getD "labor_hours_max" (.num 0)) = .ok 1.5 := by rfl
    have h4 : serviceNameOf svcA = "Front Pads" := by rfl
    simp only [resolveService, reqA]
    simp +decide only [h1, h2, h3, h4]
    norm_num
  have hl : laborRateOf catA { reqA with partsPrice := reqA.partsPrice + 10 } = .ok 90 := by rfl
  have hz : zip_multiplier "92646" = 1.10 := by simp +decide [zip_multiplier]
  simp only [estimate, hc, hr, hl]
  simp +decide only [priceResponse, respA10, reqA, effectiveZip]
  norm_num [hz, year_multiplier, pyRound]

/-- Evaluation of Scenario A with a null zip: the "00000" fallback applies. -/
theorem eval_reqNoZip : estimate mmA catA reqNoZip = Except.ok respNoZip := by
  have hc : checkVehicle mmA reqNoZip = .ok () := by rfl
  have hr : resolveService catA reqNoZip = .ok ("Front Pads", 1.25) := by
    have h1 : find_service_by_code catA "front_pads" = some svcA := by rfl
    have h2 : pyFloat (svcA.getD "labor_hours_min" (.num 0)) = .ok 1 := by rfl
    have h3 : pyFloat (svcA.getD "labor_hours_max" (.num 0)) = .ok 1.5 := by rfl
    have h4 : serviceNameOf svcA = "Front Pads" := by rfl
    simp only [resolveService, reqNoZip, reqA]
    simp +decide only [h1, h2, h3, h4]
    norm_num
  have hl : laborRateOf catA reqNoZip = .ok 90 := by rfl
  have hz : zip_multiplier "00000" = 1.08 := by simp +decide [zip_multiplier]
  simp only [estimate, hc, hr, hl]
  simp +decide only [priceResponse, respNoZip, reqNoZip, reqA, effectiveZip, zipDefault]
  norm_num [hz, year_multiplier, pyRound]

/-- Evaluation of the hours-less service request: labor degenerates to 0. -/
theorem eval_reqM : estimate mmA mysteryDoc reqM = Except.ok respM := by
  have hc : checkVehicle mmA reqM = .ok () := by rfl
  have hr : resolveService mysteryDoc reqM = .ok ("Mystery Service", 0) := by
    have h1 : find_service_by_code mysteryDoc "mystery" = some mysterySvc := by rfl
    have h2 : pyFloat (mysterySvc.getD "labor_hours_min" (.num 0)) = .ok 0 := by rfl
    have h3 : pyFloat (mysterySvc.getD "labor_hours_max" (.num 0)) = .ok 0 := by rfl
    have h4 : serviceNameOf mysterySvc = "Mystery Service" := by rfl
    simp only [resolveService, reqM]
    simp +decide only [h1, h2, h3, h4]
    norm_num
  have hl : laborRateOf mysteryDoc reqM = .ok 90 := by rfl
  have hz : zip_multiplier "92646" = 1.10 := by simp +decide [zip_multiplier]
  simp only [estimate, hc, hr, hl]
  simp +decide only [priceResponse, respM, reqM, effectiveZip]
  norm_num [hz, year_multiplier, pyRound]

/-- Evaluation of the 2021 F-150 request: only the year factor 1.05 is
applied. -/
theorem eval_reqF : estimate mmF emptyCatalogDoc reqF = Except.ok respF := by
  have hc : checkVehicle mmF reqF = .ok () := by rfl
  have hr : resolveService emptyCatalogDoc reqF = .ok ("Generic Service", 0) := by rfl
  have hl : laborRateOf emptyCatalogDoc reqF = .ok 100 := by rfl
  have hz : zip_multiplier "77777" = 1.00 := by simp +decide [zip_multiplier]
  simp only [estimate, hc, hr, hl]
  simp +decide only [priceResponse, respF, reqF, effectiveZip]
  norm_num [hz, year_multiplier, pyRound]

/-- Evaluation of the zero-rate-override request: the 0 override wins over
the catalog default of 90. -/
theorem eval_reqZero : estimate mmA catD reqZero = Except.ok respZero := by
  have hc : checkVehicle mmA reqZero = .ok () := by rfl
  have hr : resolveService catD reqZero = .ok ("Oil Change", 0) := by rfl
  have hl : laborRateOf catD reqZero = .ok 0 := by rfl
  have hz : zip_multiplier "92646" = 1.10 := by simp +decide [zip_multiplier]
  simp only [estimate, hc, hr, hl]
  simp +decide only [priceResponse, respZero, reqZero, effectiveZip]
  norm_num [hz, year_multiplier, pyRound]

/-- A parsed document passing the object-with-categories-list shape check is
served back unchanged by `load_services_catalog`. -/
theorem load_ok_of_shapeOk (doc : Json) (h : catalogShapeOk doc = true) :
    load_services_catalog (.parsed doc) = Except.ok doc := by
  unfold catalogShapeOk at h
  split at h
  · rename_i kvs
    split at h
    · rename_i xs heq
      simp [load_services_catalog, heq]
    · simp at h
  · simp at h

/-- A parsed document failing the shape check is rejected with an error. -/
theorem load_err_of_not_shapeOk (doc : Json) (h : catalogShapeOk doc = false) :
    ∃ e, load_services_catalog (.parsed doc) = Except.error e := by
  cases doc with
  | obj kvs =>
    cases hl : kvs.lookup "categories" with
    | none => exact ⟨"services_catalog.json must include a categories list",
        by simp [load_services_catalog, hl]⟩
    | some v =>
      cases v with
      | arr xs => simp [catalogShapeOk, hl] at h
      | null => exact ⟨"services_catalog.json must include a categories list",
          by simp [load_services_catalog, hl]⟩
      | bool b => exact ⟨"services_catalog.json must include a categories list",
          by simp [load_services_catalog, hl]⟩
      | num q => exact ⟨"services_catalog.json must include a categories list",
          by simp [load_services_catalog, hl]⟩
      | str s => exact ⟨"services_catalog.json must include a categories list",
          by simp [load_services_catalog, hl]⟩
      | obj kvs2 => exact ⟨"services_catalog.json must include a categories list",
          by simp [load_services_catalog, hl]⟩
  | null => exact ⟨"services_catalog.json must be a JSON object.", by simp [load_services_catalog]⟩
  | bool b => exact ⟨"services_catalog.json must be a JSON object.", by simp [load_services_catalog]⟩
  | num q => exact ⟨"services_catalog.json must be a JSON object.", by simp [load_services_catalog]⟩
  | str s => exact ⟨"services_catalog.json must be a JSON object.", by simp [load_services_catalog]⟩
  | arr xs => exact ⟨"services_catalog.json must be a JSON object.", by simp [load_services_catalog]⟩

/-- `resolveService` on the hours-less service: the name resolves and the
hours default stays 0. -/
theorem resolve_reqM : resolveService mysteryDoc reqM = Except.ok ("Mystery Service", 0) := by
  have h1 : find_service_by_code mysteryDoc "mystery" = some mysterySvc := by rfl
  have h2 : pyFloat (mysterySvc.getD "labor_hours_min" (.num 0)) = .ok 0 := by rfl
  have h3 : pyFloat (mysterySvc.getD "labor_hours_max" (.num 0)) = .ok 0 := by rfl
  have h4 : serviceNameOf mysterySvc = "Mystery Service" := by rfl
  simp only [resolveService, reqM]
  simp +decide only [h1, h2, h3, h4]
  norm_num

/-- C1, counterexample: two Scenario-A requests differing only in partsPrice
by 10 produce subtotals (and rounded estimates) 11 apart, not 10: the
multipliers are applied to parts as well as labor. -/
theorem C1_counterexample :
    estimate mmA catA reqA = Except.ok respA ∧
    estimate mmA catA { reqA with partsPrice := reqA.partsPrice + 10 } = Except.ok respA10 ∧
    respA10.breakdown.subtotal - respA.breakdown.subtotal = 11 ∧
    respA10.estimate - respA.estimate = 11 ∧
    (11 : ℚ) ≠ 10 ∧ (11 : ℤ) ≠ 10 :=
  ⟨eval_reqA, eval_reqA10, by norm_num [respA, respA10], by norm_num [respA, respA10],
    by norm_num, by norm_num⟩

/-- C1, amended: the zip and year multipliers are applied to the sum of labor
and parts (src/app.py line 341), so two successful requests differing only in
partsPrice by d have subtotals differing by exactly d × zipMultiplier ×
yearMultiplier, with labor unchanged. -/
theorem C1_parts_delta (mm : MakeModels) (cat : Json) (req : EstimateRequest) (d : ℚ)
    (r1 r2 : EstimateResponse)
    (h1 : estimate mm cat req = Except.ok r1)
    (h2 : estimate mm cat { req with partsPrice := req.partsPrice + d } = Except.ok r2) :
    r2.breakdown.subtotal =
      r1.breakdown.subtotal + d * r1.breakdown.zip_multiplier * r1.breakdown.year_multiplier ∧
    r2.breakdown.labor = r1.breakdown.labor ∧
    r2.breakdown.parts = r1.breakdown.parts + d := by
  rw [estimate_eq_ok] at h1 h2
  obtain ⟨nm, hd, lr, hcv, hrs, hlr, rfl⟩ := h1
  obtain ⟨nm2, hd2, lr2, hcv2, hrs2, hlr2, rfl⟩ := h2
  have e1 : resolveService cat { req with partsPrice := req.partsPrice + d } =
      resolveService cat req := rfl
  have e2 : laborRateOf cat { req with partsPrice := req.partsPrice + d } =
      laborRateOf cat req := rfl
  rw [e1, hrs] at hrs2
  rw [e2, hlr] at hlr2
  obtain ⟨rfl, rfl⟩ : nm = nm2 ∧ hd = hd2 := by
    have h := Except.ok.injEq _ _ ▸ hrs2
    exact ⟨congrArg Prod.fst h, congrArg Prod.snd h⟩
  obtain rfl : lr = lr2 := Except.ok.injEq _ _ ▸ hlr2
  refine ⟨?_, rfl, rfl⟩
  simp only [priceResponse]
  ring

/-- C1, witness: the amended statement at Scenario A with d = 10. -/
theorem C1_witness :
    respA10.breakdown.subtotal =
      respA.breakdown.subtotal + 10 * respA.breakdown.zip_multiplier *
        respA.breakdown.year_multiplier :=
  (C1_parts_delta mmA catA reqA 10 respA respA10 eval_reqA eval_reqA10).1

/-- C2, counterexample: on the Scenario-A inputs the code does not return the
claimed range (laborLow 99, laborHigh 148.50, totals 139.00-188.50); it
returns a single response with labor 112.50, subtotal 167.75 and rounded
estimate 168. -/
theorem C2_counterexample :
    estimate mmA catA reqA = Except.ok respA ∧
    respA.breakdown.labor = 112.5 ∧ respA.breakdown.subtotal = 167.75 ∧
    respA.estimate = 168 ∧
    respA.breakdown.labor ≠ 99 ∧ respA.breakdown.labor ≠ 148.5 ∧
    respA.breakdown.subtotal ≠ 139 ∧ respA.breakdown.subtotal ≠ 188.5 ∧
    respA.estimate ≠ 139 :=
  ⟨eval_reqA, by norm_num [respA], by norm_num [respA], by norm_num [respA],
    by norm_num [respA], by norm_num [respA], by norm_num [respA],
    by norm_num [respA], by norm_num [respA]⟩

/-- C2, amended: the code computes a single-point estimate, not a range:
labor = effective hours × rate, subtotal = (labor + parts) × zipMultiplier ×
yearMultiplier, estimate = half-even rounding of the subtotal; and for a
service resolved by code with 0 < max and min ≤ max, the default hours are
the midpoint (min + max) / 2. -/
theorem C2_single_point :
    (∀ (mm : MakeModels) (cat : Json) (req : EstimateRequest) (r : EstimateResponse),
      estimate mm cat req = Except.ok r →
      r.breakdown.labor = r.breakdown.labor_hours * r.breakdown.labor_rate ∧
      r.breakdown.subtotal =
        (r.breakdown.labor + r.breakdown.parts) * r.breakdown.zip_multiplier *
          r.breakdown.year_multiplier ∧
      r.estimate = pyRound r.breakdown.subtotal) ∧
    (∀ (cat : Json) (req : EstimateRequest) (sc : String) (s : Json) (mn mx : ℚ),
      req.serviceCode = some sc → ¬sc = "" →
      find_service_by_code cat sc = some s →
      pyFloat (s.getD "labor_hours_min" (.num 0)) = Except.ok mn →
      pyFloat (s.getD "labor_hours_max" (.num 0)) = Except.ok mx →
      0 < mx → mn ≤ mx →
      resolveService cat req = Except.ok (serviceNameOf s, (mn + mx) / 2)) := by
  constructor
  · intro mm cat req r h
    rw [estimate_eq_ok] at h
    obtain ⟨nm, hd, lr, hcv, hrs, hlr, rfl⟩ := h
    exact ⟨rfl, rfl, rfl⟩
  · intro cat req sc s mn mx hsc hne hfind hmn hmx hpos hle
    simp only [resolveService, hsc]
    rw [if_neg hne]
    simp only [hfind, hmn, hmx]
    rw [if_pos ⟨hpos, hle⟩]

/-- C2, witness: the single-point pricing relations hold of the Scenario-A
response, whose estimate is 168. -/
theorem C2_witness :
    (respA.breakdown.labor = respA.breakdown.labor_hours * respA.breakdown.labor_rate ∧
      respA.breakdown.subtotal =
        (respA.breakdown.labor + respA.breakdown.parts) * respA.breakdown.zip_multiplier *
          respA.breakdown.year_multiplier ∧
      respA.estimate = pyRound respA.breakdown.subtotal) ∧
    resolveService catA reqA = Except.ok (serviceNameOf svcA, (1 + 1.5) / 2) :=
  ⟨C2_single_point.1 mmA catA reqA respA eval_reqA,
    C2_single_point.2 catA reqA "front_pads" svcA 1 1.5 rfl (by decide) rfl rfl rfl
      (by norm_num) (by norm_num)⟩

/-- C3, counterexample: catalog loading performs no hours normalization — the
hours-less service document loads unchanged (its entry has neither hours
bound), and pricing the resolved service yields a labor component of 0. -/
theorem C3_counterexample :
    load_services_catalog (.parsed mysteryDoc) = Except.ok mysteryDoc ∧
    mysterySvc.getKey "labor_hours_min" = none ∧
    mysterySvc.getKey "labor_hours_max" = none ∧
    estimate mmA mysteryDoc reqM = Except.ok respM ∧
    respM.breakdown.labor = 0 :=
  ⟨rfl, rfl, rfl, eval_reqM, rfl⟩

/-- C3, amended: the loader backfills nothing — any document passing the
shape check is returned unchanged; the min/max-positivity invariant does hold
for every entry of the generated monster catalog (because the generator
writes explicit bounds), but a resolved service whose hours default is 0
prices with labor 0 when no positive laborHours override is given. -/
theorem C3_no_backfill :
    (∀ doc, catalogShapeOk doc = true → load_services_catalog (.parsed doc) = Except.ok doc) ∧
    Monster.build.all (fun c => c.services.all Monster.Service.boundsOk) = true ∧
    (∀ (mm : MakeModels) (cat : Json) (req : EstimateRequest) (r : EstimateResponse)
      (nm : String),
      estimate mm cat req = Except.ok r →
      resolveService cat req = Except.ok (nm, 0) →
      ¬0 < req.laborHours →
      r.breakdown.labor = 0) := by
  refine ⟨load_ok_of_shapeOk, ?_, ?_⟩
  · norm_num [Monster.build, Monster.svc, Monster.cat, Monster.Service.boundsOk,
      List.all_cons, round2, pyRound]
  · intro mm cat req r nm h hres hnl
    rw [estimate_eq_ok] at h
    obtain ⟨nm2, hd2, lr, hc, hr2, hl, rfl⟩ := h
    rw [hres] at hr2
    simp only [Except.ok.injEq, Prod.mk.injEq] at hr2
    obtain ⟨rfl, rfl⟩ := hr2
    simp only [priceResponse, if_neg hnl]
    exact zero_mul lr

/-- C3, witness: the amended statement at the hours-less catalog and
request. -/
theorem C3_witness :
    load_services_catalog (.parsed mysteryDoc) = Except.ok mysteryDoc ∧
    respM.breakdown.labor = 0 :=
  ⟨C3_no_backfill.1 mysteryDoc (by rfl),
    C3_no_backfill.2.2 mmA mysteryDoc reqM respM "Mystery Service" eval_reqM resolve_reqM
      (by norm_num [reqM])⟩

/-- C4, counterexample: for year 2021 and model "F-150" the only
vehicle-derived factor the code applies is the year multiplier 1.05 — there
is no body-type factor, so the combined multiplier is 1.05, not 1.26 (and the
subtotal on one labor-hour at rate 100 is 105, not 126). -/
theorem C4_counterexample :
    estimate mmF emptyCatalogDoc reqF = Except.ok respF ∧
    respF.breakdown.year_multiplier = 1.05 ∧
    respF.breakdown.zip_multiplier = 1 ∧
    respF.breakdown.subtotal = 105 ∧
    (1.05 : ℚ) ≠ 1.26 ∧ (105 : ℚ) ≠ 126 :=
  ⟨eval_reqF, rfl, rfl, rfl, by norm_num, by norm_num⟩

/-- C4, amended: the vehicle multiplier is the year factor alone (1.08 for
year ≤ 2005, 1.05 for year ≥ 2020, else 1.00); the model string never
influences the computed price — two successful requests differing only in the
model field produce identical responses. -/
theorem C4_year_factor_only :
    (∀ year : ℤ,
      (year ≤ 2005 → year_multiplier year = 1.08) ∧
      (2020 ≤ year → year_multiplier year = 1.05) ∧
      (2005 < year → year < 2020 → year_multiplier year = 1.00)) ∧
    (∀ (mm : MakeModels) (cat : Json) (req : EstimateRequest) (m2 : String)
      (r r2 : EstimateResponse),
      estimate mm cat req = Except.ok r →
      estimate mm cat { req with model := m2 } = Except.ok r2 →
      r2 = r) := by
  constructor
  · intro year
    refine ⟨fun h => ?_, fun h => ?_, fun h1 h2 => ?_⟩
    · simp only [year_multiplier, if_pos h]
    · rw [year_multiplier, if_neg (by omega), if_pos h]
    · rw [year_multiplier, if_neg (by omega), if_neg (by omega)]
  · intro mm cat req m2 r r2 h h2
    rw [estimate_eq_ok] at h h2
    obtain ⟨nm, hd, lr, hc, hr, hl, rfl⟩ := h
    obtain ⟨nm2, hd2, lr2, hc2, hr2, hl2, rfl⟩ := h2
    have e1 : resolveService cat { req with model := m2 } = resolveService cat req := rfl
    have e2 : laborRateOf cat { req with model := m2 } = laborRateOf cat req := rfl
    rw [e1, hr] at hr2
    rw [e2, hl] at hl2
    simp only [Except.ok.injEq, Prod.mk.injEq] at hr2 hl2
    obtain ⟨rfl, rfl⟩ := hr2
    obtain rfl := hl2
    rfl

/-- C4, witness: the year factor at 2021 and at 1999. -/
theorem C4_witness : year_multiplier 2021 = 1.05 ∧ year_multiplier 1999 = 1.08 :=
  ⟨(C4_year_factor_only.1 2021).2.1 (by norm_num),
    (C4_year_factor_only.1 1999).1 (by norm_num)⟩

/-- C5, counterexample: "92646-1234" contains non-digit characters, yet the
multiplier is 1.10, not 1.00 — only the first five characters are inspected,
so a ZIP+4 string is not treated as degenerate. -/
theorem C5_counterexample :
    zip_multiplier "92646-1234" = 1.10 ∧
    "92646-1234".data.all Char.isDigit = false ∧
    (1.10 : ℚ) ≠ 1.00 :=
  ⟨by simp +decide [zip_multiplier], by decide, by norm_num⟩

/-- C5, amended: the regional multiplier is decided entirely by the first
five characters of the trimmed ZIP string — 1.10 / 1.08 / 1.00 by the first
digit when those five are all digits, and 1.00 in every other case (empty,
short, or a non-digit among the first five); characters beyond the fifth are
ignored, and no input errors. `zip_multiplier` coincides with that rule,
stated independently as `zipSpecMultiplier`. -/
theorem C5_regional_rule (s : String) : zip_multiplier s = zipSpecMultiplier s := by
  unfold zip_multiplier zipSpecMultiplier
  cases hl : (pyStrip s).data.take 5 with
  | nil => simp [pyTake, hl, pyLen, pyIsDigit]
  | cons c cs =>
    simp only [pyTake, hl, pyLen, pyIsDigit, pyStartsWith]
    have hpre : ∀ a : Char, ([a].isPrefixOf (c :: cs)) = (c == a) := by
      intro a
      by_cases h : a = c
      · subst h; simp [List.isPrefixOf]
      · have h2 : ¬c = a := fun hh => h hh.symm
        simp [List.isPrefixOf, h, h2]
    have hcond : ((c :: cs).length == 5 &&
        (!(c :: cs).isEmpty && (c :: cs).all Char.isDigit)) = true ↔
        ((c :: cs).length = 5 ∧ ∀ x ∈ c :: cs, x.isDigit = true) := by
      simp [List.all_eq_true]
    rw [hpre '9', hpre '0', hpre '1']
    by_cases hmain : (c :: cs).length = 5 ∧ ∀ x ∈ c :: cs, x.isDigit = true
    · rw [if_pos (hcond.mpr hmain), if_pos hmain]
      by_cases h9 : c = '9'
      · simp [h9]
      · by_cases h0 : c = '0'
        · simp [h9, h0]
        · by_cases h1 : c = '1'
          · simp [h9, h0, h1]
          · simp [h9, h0, h1]
    · rw [if_neg (fun hh => hmain (hcond.mp hh)), if_neg hmain]

/-- C5, witness: the refinement at concrete ZIPs of each class. -/
theorem C5_witness :
    zip_multiplier "92646" = zipSpecMultiplier "92646" ∧
    zip_multiplier "" = zipSpecMultiplier "" ∧
    zip_multiplier "10001" = zipSpecMultiplier "10001" ∧
    zip_multiplier "60601" = zipSpecMultiplier "60601" :=
  ⟨C5_regional_rule "92646", C5_regional_rule "", C5_regional_rule "10001",
    C5_regional_rule "60601"⟩

/-- C6, counterexample: with a fully resolvable service selection but an
unrecognized make, the code raises "Invalid make" instead of computing an
estimate — make and model are validated, not advisory. -/
theorem C6_counterexample :
    estimate mmA catA reqBadMake = Except.error "Invalid make" ∧
    find_service_by_code catA "front_pads" = some svcA :=
  ⟨rfl, rfl⟩

/-- C6, amended: `estimate` validates the vehicle against the loaded
make→models mapping before any pricing: an unknown (trimmed, upper-cased)
make yields the 400 error "Invalid make", and a model not listed for the
make yields "Invalid model for selected make"; no estimate is computed in
either case. -/
theorem C6_vehicle_validated (mm : MakeModels) (cat : Json) (req : EstimateRequest) :
    (mm.lookup (pyUpper (pyStrip req.make)) = none →
      estimate mm cat req = Except.error "Invalid make") ∧
    (∀ models, mm.lookup (pyUpper (pyStrip req.make)) = some models →
      pyStrip req.model ≠ "" →
      models.any (fun m => pyUpper m == pyUpper (pyStrip req.model)) = false →
      estimate mm cat req = Except.error "Invalid model for selected make") := by
  constructor
  · intro h
    simp [estimate, checkVehicle, h]
  · intro models hm hne hany
    simp [estimate, checkVehicle, hm, hne, hany]

/-- C6, witness: the model branch at a concrete request (make HONDA known,
model "Accord" not in its list). -/
theorem C6_witness :
    estimate mmA catA reqBadModel = Except.error "Invalid model for selected make" :=
  (C6_vehicle_validated mmA catA reqBadModel).2 ["Civic"] rfl (by decide) (by decide)

/-- C7, counterexample: a labor-rate override of 0 is used as the labor rate
(the code tests `is not None`, not positivity), even though the catalog
default rate is 90 — the claim's "strictly positive" guard does not exist. -/
theorem C7_counterexample :
    estimate mmA catD reqZero = Except.ok respZero ∧
    respZero.breakdown.labor_rate = 0 ∧
    default_labor_rate catD = Except.ok 90 ∧
    (0 : ℚ) ≠ 90 := by
  have hk : catD.getKey "default_labor_rate" = some (.num 90) := rfl
  exact ⟨eval_reqZero, rfl,
    by simp [default_labor_rate, hk, orTruthy, Json.truthy, pyFloat],
    by norm_num⟩

/-- C7, amended: the labor rate is the request override whenever one is
supplied (any non-null value, including 0); only an absent override falls
back to `default_labor_rate`, which reads the catalog's truthy
`default_labor_rate` (or `labor_rate`) value and otherwise returns the
hard-coded 90. -/
theorem C7_labor_rate (cat : Json) (req : EstimateRequest) :
    (∀ r0, req.laborRate = some r0 → laborRateOf cat req = Except.ok r0) ∧
    (req.laborRate = none → laborRateOf cat req = default_labor_rate cat) ∧
    (cat.getKey "default_labor_rate" = none → cat.getKey "labor_rate" = none →
      default_labor_rate cat = Except.ok 90) := by
  refine ⟨?_, ?_, ?_⟩
  · intro r0 h; simp [laborRateOf, h]
  · intro h; simp [laborRateOf, h]
  · intro h1 h2; simp [default_labor_rate, orTruthy, h1, h2, pyFloat]

/-- C7, witness: the zero override is taken verbatim, and a catalog with no
rate keys falls back to 90. -/
theorem C7_witness :
    laborRateOf catD reqZero = Except.ok 0 ∧
    default_labor_rate emptyCatalogDoc = Except.ok 90 :=
  ⟨(C7_labor_rate catD reqZero).1 0 rfl,
    (C7_labor_rate emptyCatalogDoc reqZero).2.2 rfl rfl⟩

/-- C8, counterexample: a document whose `categories` list is empty is
accepted and served, not rejected — there is no empty-catalog guard. -/
theorem C8_counterexample :
    load_services_catalog (.parsed emptyCatalogDoc) = Except.ok emptyCatalogDoc ∧
    categoriesOf emptyCatalogDoc = [] :=
  ⟨rfl, rfl⟩

/-- C8, amended: catalog loading fails exactly when the file is missing, the
document is unreadable/unparseable, the parsed value is not an object, or it
lacks a `categories` list; a well-shaped document — including one whose
`categories` list is empty — is served unchanged. -/
theorem C8_load_errors :
    (∀ doc, catalogShapeOk doc = true → load_services_catalog (.parsed doc) = Except.ok doc) ∧
    (∀ doc, catalogShapeOk doc = false →
      ∃ e, load_services_catalog (.parsed doc) = Except.error e) ∧
    (∃ e, load_services_catalog .missing = Except.error e) ∧
    (∃ e, load_services_catalog .unreadableOrInvalid = Except.error e) ∧
    load_services_catalog (.parsed emptyCatalogDoc) = Except.ok emptyCatalogDoc :=
  ⟨load_ok_of_shapeOk, load_err_of_not_shapeOk,
    ⟨"Missing services_catalog.json at project root.", rfl⟩,
    ⟨"Invalid JSON in services_catalog.json", rfl⟩, rfl⟩

/-- C8, witness: the Scenario-A catalog passes the shape check and loads
unchanged. -/
theorem C8_witness : load_services_catalog (.parsed catA) = Except.ok catA :=
  C8_load_errors.1 catA rfl

/-- C9: service resolution is by code alone — the nested category/service
scan equals a first-match search over the flattened, catalog-ordered service
list — and the request's category field is never consulted by `estimate`. -/
theorem C9_code_only_resolution :
    (∀ (cat : Json) (code : String), pyStrip code ≠ "" →
      find_service_by_code cat code =
        ((categoriesOf cat).flatMap servicesOf).find?
          (fun s => codeMatches s (pyStrip code))) ∧
    (∀ (mm : MakeModels) (cat : Json) (req : EstimateRequest) (c : Option String),
      estimate mm cat { req with category := c } = estimate mm cat req) := by
  constructor
  · intro cat code h
    simp only [find_service_by_code]
    rw [if_neg h]
    exact findInCats_eq (categoriesOf cat) (pyStrip code)
  · intro mm cat req c
    rfl

/-- C9, witness: the flattened-search characterisation at the Scenario-A
catalog, and category-field irrelevance at the Scenario-A request. -/
theorem C9_witness :
    find_service_by_code catA "front_pads" =
      ((categoriesOf catA).flatMap servicesOf).find?
        (fun s => codeMatches s (pyStrip "front_pads")) ∧
    estimate mmA catA { reqA with category := some "engine" } = estimate mmA catA reqA :=
  ⟨C9_code_only_resolution.1 catA "front_pads" (by decide),
    C9_code_only_resolution.2 mmA catA reqA (some "engine")⟩

/-- C10: the zip field's pydantic default is the five-digit string "00000",
whose prefix 0 draws the 1.08 northeast multiplier; a request with a null (or
defaulted) zip therefore prices with multiplier 1.08. -/
theorem C10_default_zip :
    (zipDefault = "00000" ∧ pyLen zipDefault = 5 ∧ pyIsDigit zipDefault = true ∧
      ({ year := 2000, make := "M", model := "D" } : EstimateRequest).zip = some zipDefault ∧
      zip_multiplier zipDefault = 1.08) ∧
    (∀ (mm : MakeModels) (cat : Json) (req : EstimateRequest) (r : EstimateResponse),
      req.zip = none ∨ req.zip = some zipDefault →
      estimate mm cat req = Except.ok r →
      r.breakdown.zip_multiplier = 1.08) := by
  constructor
  · exact ⟨rfl, rfl, rfl, rfl, zip_multiplier_default⟩
  · intro mm cat req r hz h
    rw [estimate_eq_ok] at h
    obtain ⟨nm, hd, lr, hc, hr, hl, rfl⟩ := h
    have hez : effectiveZip req.zip = zipDefault := by
      rcases hz with h0 | h0 <;> simp +decide [effectiveZip, h0, zipDefault]
    simp only [priceResponse, hez, zip_multiplier_default]

/-- C10, witness: the 1.08 multiplier on the Scenario-A request with a null
zip. -/
theorem C10_witness : respNoZip.breakdown.zip_multiplier = 1.08 :=
  C10_default_zip.2 mmA catA reqNoZip respNoZip (Or.inl rfl) eval_reqNoZip
